import Mathlib

/-!
Verification of the provider registry, single-task poll loop, adapter handle
maps, and parallel poll orchestrator of the creative-engine generation tools
(`tools/providers/__init__.py`, `tools/providers/replicate.py`,
`tools/providers/wavespeed.py`), as a shallow embedding in Lean.

Python dictionaries are embedded as association lists (`List (κ × α)` with
`List.lookup`, insertion as `cons`, so the most recent binding wins exactly as
a dict assignment overwrites), Python `None`-able values as `Option`, raised
exceptions as `Except.error` carrying the message, and wall-clock time as a
`Nat` of seconds advanced only by the loop's own sleeps (network time
idealized as zero).
-/

deriving instance DecidableEq for Except

namespace CreativeEngine

/-- A provider module, one per vendor adapter imported by
`tools/providers/__init__.py`. -/
inductive Provider where
  | google
  | kie
  | wavespeed
  | replicate
deriving DecidableEq, Repr

/-- One catalog entry: `{"default": ..., "providers": {...}}` from
`IMAGE_PROVIDERS` / `VIDEO_PROVIDERS`. -/
structure ModelEntry where
  default : String
  providers : List (String × Provider)
deriving DecidableEq, Repr

/-- The image model registry of `tools/providers/__init__.py`. -/
def IMAGE_PROVIDERS : List (String × ModelEntry) :=
  [ ("nano-banana",
      ⟨"google", [("google", .google), ("kie", .kie)]⟩),
    ("nano-banana-pro",
      ⟨"google", [("google", .google), ("kie", .kie)]⟩),
    ("gpt-image-1.5",
      ⟨"wavespeed", [("wavespeed", .wavespeed)]⟩),
    ("flux-schnell",
      ⟨"replicate", [("replicate", .replicate)]⟩),
    ("flux-dev",
      ⟨"replicate", [("replicate", .replicate)]⟩) ]

/-- The video model registry of `tools/providers/__init__.py`. -/
def VIDEO_PROVIDERS : List (String × ModelEntry) :=
  [ ("kling-3.0",
      ⟨"wavespeed", [("kie", .kie), ("wavespeed", .wavespeed)]⟩),
    ("sora-2",
      ⟨"wavespeed", [("wavespeed", .wavespeed)]⟩),
    ("sora-2-pro",
      ⟨"wavespeed", [("kie", .kie), ("wavespeed", .wavespeed)]⟩),
    ("veo-3.1",
      ⟨"google", [("google", .google)]⟩),
    ("ltx-video",
      ⟨"replicate", [("replicate", .replicate)]⟩),
    ("wan-2.1",
      ⟨"replicate", [("replicate", .replicate)]⟩),
    ("cogvideox",
      ⟨"replicate", [("replicate", .replicate)]⟩),
    ("minimax-video",
      ⟨"replicate", [("replicate", .replicate)]⟩) ]

/-- Errors raised by the registry lookups, carrying exactly the data the
Python f-strings interpolate: the offending name and the list of valid keys. -/
inductive RegistryError where
  | unknownModel (model : String) (available : List String)
  | providerUnavailable (provider : String) (available : List String)
deriving DecidableEq, Repr

/-- Python's string `or`: `a or b` yields `b` when `a` is `None` or the empty
string (falsy), otherwise `a`. Used both for `provider_override or
model_config["default"]` and for `data.get("error") or status`. -/
def pyOr (a : Option String) (b : String) : String :=
  match a with
  | some s => if s = "" then b else s
  | none => b

/-- `get_image_provider` of `tools/providers/__init__.py`. -/
def get_image_provider (model : String) (provider_override : Option String) :
    Except RegistryError (Provider × String) :=
  match IMAGE_PROVIDERS.lookup model with
  | none => .error (.unknownModel model (IMAGE_PROVIDERS.map Prod.fst))
  | some model_config =>
    let provider_name := pyOr provider_override model_config.default
    match model_config.providers.lookup provider_name with
    | none =>
        .error (.providerUnavailable provider_name
          (model_config.providers.map Prod.fst))
    | some provider => .ok (provider, provider_name)

/-- `get_video_provider` of `tools/providers/__init__.py`. -/
def get_video_provider (model : String) (provider_override : Option String) :
    Except RegistryError (Provider × String) :=
  match VIDEO_PROVIDERS.lookup model with
  | none => .error (.unknownModel model (VIDEO_PROVIDERS.map Prod.fst))
  | some model_config =>
    let provider_name := pyOr provider_override model_config.default
    match model_config.providers.lookup provider_name with
    | none =>
        .error (.providerUnavailable provider_name
          (model_config.providers.map Prod.fst))
    | some provider => .ok (provider, provider_name)

/-- `true` iff the computation returned normally rather than raising. -/
def exceptOk {ε α : Type} : Except ε α → Bool
  | .ok _ => true
  | .error _ => false

/-- C5: for every model key of the image catalog (resp. the video catalog),
the resolver called with no override returns the model's default provider
module paired with the default provider name, and that default name is a key
of the model's providers map. -/
theorem registry_default_resolution :
    (∀ p ∈ IMAGE_PROVIDERS,
        (p.2.providers.map Prod.fst).contains p.2.default = true ∧
        get_image_provider p.1 none =
          .ok ((p.2.providers.lookup p.2.default).getD .google, p.2.default)) ∧
    (∀ p ∈ VIDEO_PROVIDERS,
        (p.2.providers.map Prod.fst).contains p.2.default = true ∧
        get_video_provider p.1 none =
          .ok ((p.2.providers.lookup p.2.default).getD .google, p.2.default)) := by
  decide

/-- Witness for C5 at the catalog entry for "nano-banana". -/
theorem registry_default_resolution_witness :
    ([("google", Provider.google), ("kie", Provider.kie)].map Prod.fst).contains
        "google" = true ∧
    get_image_provider "nano-banana" none = .ok (Provider.google, "google") :=
  registry_default_resolution.1
    ("nano-banana", ⟨"google", [("google", .google), ("kie", .kie)]⟩)
    (by decide)

/-- C6 counterexample: the empty string is not a key of the providers map of
the valid model "nano-banana", yet `get_image_provider` with override `""`
returns the default provider normally instead of raising
`ProviderUnavailable`. -/
theorem registry_override_counterexample :
    (IMAGE_PROVIDERS.lookup "nano-banana").isSome = true ∧
    ((IMAGE_PROVIDERS.lookup "nano-banana").bind
        (fun e => e.providers.lookup "")) = none ∧
    get_image_provider "nano-banana" (some "") =
      .ok (Provider.google, "google") := by
  decide

/-- C6 (amended): with a model name absent from the kind-specific catalog the
resolver raises `UnknownModel` naming the model and listing the valid keys;
with a valid model and a NON-EMPTY override that is not a key of that model's
providers map it raises `ProviderUnavailable` naming the requested provider
and listing the providers available for that model. -/
theorem registry_invalid_input_errors :
    (∀ model ov, IMAGE_PROVIDERS.lookup model = none →
        get_image_provider model ov =
          .error (.unknownModel model (IMAGE_PROVIDERS.map Prod.fst))) ∧
    (∀ model cfg p, IMAGE_PROVIDERS.lookup model = some cfg → p ≠ "" →
        cfg.providers.lookup p = none →
        get_image_provider model (some p) =
          .error (.providerUnavailable p (cfg.providers.map Prod.fst))) ∧
    (∀ model ov, VIDEO_PROVIDERS.lookup model = none →
        get_video_provider model ov =
          .error (.unknownModel model (VIDEO_PROVIDERS.map Prod.fst))) ∧
    (∀ model cfg p, VIDEO_PROVIDERS.lookup model = some cfg → p ≠ "" →
        cfg.providers.lookup p = none →
        get_video_provider model (some p) =
          .error (.providerUnavailable p (cfg.providers.map Prod.fst))) := by
  refine ⟨?_, ?_, ?_, ?_⟩
  · intro model ov h
    simp [get_image_provider, h]
  · intro model cfg p hm hp hl
    simp [get_image_provider, hm, pyOr, hp, hl]
  · intro model ov h
    simp [get_video_provider, h]
  · intro model cfg p hm hp hl
    simp [get_video_provider, hm, pyOr, hp, hl]

/-- Witness for C6 (amended): an unknown image model raises `UnknownModel`. -/
theorem registry_invalid_input_errors_witness :
    get_image_provider "no-such-model" none =
      .error (.unknownModel "no-such-model" (IMAGE_PROVIDERS.map Prod.fst)) :=
  registry_invalid_input_errors.1 "no-such-model" none (by decide)

/-- C9: for every catalog model, the resolver called with the empty string as
override behaves exactly as with no override — it returns normally with the
default provider rather than raising — because any falsy override falls back
to the default. -/
theorem registry_empty_override_default :
    (∀ p ∈ IMAGE_PROVIDERS,
        get_image_provider p.1 (some "") = get_image_provider p.1 none ∧
        exceptOk (get_image_provider p.1 (some "")) = true) ∧
    (∀ p ∈ VIDEO_PROVIDERS,
        get_video_provider p.1 (some "") = get_video_provider p.1 none ∧
        exceptOk (get_video_provider p.1 (some "")) = true) := by
  decide

/-- Witness for C9 at the catalog entry for "kling-3.0". -/
theorem registry_empty_override_default_witness :
    get_video_provider "kling-3.0" (some "") =
        get_video_provider "kling-3.0" none ∧
    exceptOk (get_video_provider "kling-3.0" (some "")) = true :=
  registry_empty_override_default.2
    ("kling-3.0", ⟨"wavespeed", [("kie", .kie), ("wavespeed", .wavespeed)]⟩)
    (by decide)

/-!
The Replicate adapter (`tools/providers/replicate.py`): the single-task poll
loop `_poll_prediction`, the handle map, and the parallel orchestrator.

One vendor poll (`requests.get`) is embedded as an `HttpResponse` value; a run
of the loop consumes a list of such responses, one per iteration, so the list
also serves as fuel: `none` means the trace ended before the loop did.
-/

namespace Replicate

/-- The JSON `output` field of a Replicate prediction: a list of URL strings,
a single URL string, or anything else (missing / other-typed). -/
inductive Output where
  | list (urls : List String)
  | str (s : String)
  | other
deriving DecidableEq, Repr

/-- One vendor poll response: transport status code, the JSON body's
`status` and `error` fields (absent ↦ `none`), its `output`, and the raw
response text used in error messages. -/
structure HttpResponse where
  status_code : Nat
  statusField : Option String
  output : Output
  errorField : Option String
  text : String
deriving DecidableEq, Repr

/-- The `GenerationResult` dict: `status`, `task_id`, and the optional
`result_url` / `error` fields. -/
structure GenerationResult where
  status : String
  task_id : String
  result_url : Option String
  error : Option String
deriving DecidableEq, Repr

/-- Rendering of an `Output` for interpolation into error messages. -/
def Output.render : Output → String
  | .list us => toString us
  | .str s => s
  | .other => "None"

/-- Rendering of the parsed body for interpolation into error messages. -/
def HttpResponse.render (r : HttpResponse) : String :=
  "status=" ++ r.statusField.getD "unknown" ++ ", output=" ++ r.output.render

/-- Message of `raise Exception(f"Poll failed after retries: ...")`. -/
def pollRetriesMsg (text : String) : String :=
  "Poll failed after retries: " ++ text

/-- Message of `raise Exception(f"No usable output in succeeded prediction: ...")`. -/
def noUsableOutputMsg (r : HttpResponse) : String :=
  "No usable output in succeeded prediction: " ++ r.render

/-- Message of `raise Exception(f"Replicate prediction {status}: {error}")`. -/
def predictionFailedMsg (status error : String) : String :=
  "Replicate prediction " ++ status ++ ": " ++ error

/-- Message of `raise Exception(f"Timeout waiting ... after {max_wait}s")`. -/
def timeoutMsg (max_wait : Nat) : String :=
  "Timeout waiting for Replicate prediction after " ++ toString max_wait ++ "s"

/-- Outcome of one iteration of the `while` body of `_poll_prediction`:
continue with updated elapsed seconds and retry counter, return a result, or
raise with a message. -/
inductive StepResult where
  | next (elapsed retry_count : Nat)
  | done (r : GenerationResult)
  | raised (msg : String)
deriving DecidableEq, Repr

/-- One iteration of the body of `_poll_prediction`'s `while` loop, entered
with `elapsed` seconds on the clock and `retry_count` consecutive transport
failures so far. -/
def pollStep (task_id : String) (poll_interval elapsed retry_count : Nat)
    (resp : HttpResponse) : StepResult :=
  if resp.status_code ≠ 200 then
    if retry_count + 1 > 10 then .raised (pollRetriesMsg resp.text)
    else .next (elapsed + poll_interval) (retry_count + 1)
  else
    let status := resp.statusField.getD "unknown"
    if status = "succeeded" then
      match resp.output with
      | .list (u :: _) => .done ⟨"success", task_id, some u, none⟩
      | .list [] => .raised (noUsableOutputMsg resp)
      | .str s =>
          if s = "" then .raised (noUsableOutputMsg resp)
          else .done ⟨"success", task_id, some s, none⟩
      | .other => .raised (noUsableOutputMsg resp)
    else if status = "failed" ∨ status = "canceled" then
      .raised (predictionFailedMsg status (pyOr resp.errorField status))
    else
      .next (elapsed + poll_interval) 0

/-- The `while time.time() - start_time < max_wait` loop of
`_poll_prediction`, consuming one response per iteration. Returns the raised
or returned outcome together with the elapsed seconds when the loop exited;
`none` when the response trace ran out first. -/
def pollLoop (task_id : String) (max_wait poll_interval : Nat) :
    Nat → Nat → List HttpResponse →
    Option (Except String GenerationResult × Nat)
  | elapsed, _, [] =>
      if elapsed < max_wait then none
      else some (.error (timeoutMsg max_wait), elapsed)
  | elapsed, retry_count, resp :: rest =>
      if elapsed < max_wait then
        match pollStep task_id poll_interval elapsed retry_count resp with
        | .next e r => pollLoop task_id max_wait poll_interval e r rest
        | .done g => some (.ok g, elapsed)
        | .raised m => some (.error m, elapsed)
      else some (.error (timeoutMsg max_wait), elapsed)

/-- `_poll_prediction` of `tools/providers/replicate.py`: the loop entered
with zero elapsed time and a zero retry counter. The poll URL determines
which vendor task the responses describe; the responses themselves carry the
data. -/
def _poll_prediction (task_id poll_url : String) (max_wait poll_interval : Nat)
    (resps : List HttpResponse) :
    Option (Except String GenerationResult × Nat) :=
  pollLoop task_id max_wait poll_interval 0 0 resps

/-- A successful transport response with the non-terminal vendor status
"processing" and no output. -/
def processingResp : HttpResponse :=
  ⟨200, some "processing", .other, none, ""⟩

end Replicate

/-- C3: in the single-task poll loop, each non-2xx transport response
increments the transient-retry counter; once the counter exceeds 10 the loop
raises "Poll failed after retries", otherwise it sleeps `poll_interval` and
re-polls; and every 200 transport response carrying a non-terminal vendor
status continues with the counter reset to zero, so only consecutive
transport failures count toward the bound. -/
theorem poll_retry_counter (task_id : String)
    (poll_interval elapsed retry_count : Nat) (resp : Replicate.HttpResponse) :
    (resp.status_code ≠ 200 → 10 < retry_count + 1 →
        Replicate.pollStep task_id poll_interval elapsed retry_count resp =
          .raised (Replicate.pollRetriesMsg resp.text)) ∧
    (resp.status_code ≠ 200 → retry_count + 1 ≤ 10 →
        Replicate.pollStep task_id poll_interval elapsed retry_count resp =
          .next (elapsed + poll_interval) (retry_count + 1)) ∧
    (resp.status_code = 200 →
        resp.statusField.getD "unknown" ≠ "succeeded" →
        resp.statusField.getD "unknown" ≠ "failed" →
        resp.statusField.getD "unknown" ≠ "canceled" →
        Replicate.pollStep task_id poll_interval elapsed retry_count resp =
          .next (elapsed + poll_interval) 0) := by
  refine ⟨?_, ?_, ?_⟩
  · intro h hr
    simp [Replicate.pollStep, h, hr]
  · intro h hr
    simp [Replicate.pollStep, h, Nat.not_lt.mpr hr]
  · intro h hs hf hc
    simp [Replicate.pollStep, h, hs, hf, hc]

/-- Witness for C3: the 11th consecutive transport failure raises, a 200
"processing" response resets the counter. -/
theorem poll_retry_counter_witness :
    Replicate.pollStep "t" 5 0 10 ⟨500, none, .other, none, "boom"⟩ =
        .raised (Replicate.pollRetriesMsg "boom") ∧
    Replicate.pollStep "t" 5 0 10 Replicate.processingResp = .next 5 0 := by
  have h := poll_retry_counter "t" 5 0 10 ⟨500, none, .other, none, "boom"⟩
  have h2 := poll_retry_counter "t" 5 0 10 Replicate.processingResp
  exact ⟨h.1 (by decide) (by decide),
    h2.2.2 (by decide) (by decide) (by decide) (by decide)⟩

/-- C4: on a 200 response with vendor status "succeeded", a non-empty list
output yields `Success` with the FIRST element as `result_url`; a non-empty
string output yields `Success` with that string; every other shape (empty
list, empty string, missing or other-typed output) raises an error naming the
unusable output — surfaced as `Failed`, never `Succeeded`. -/
theorem poll_succeeded_output (task_id : String)
    (poll_interval elapsed retry_count : Nat) (resp : Replicate.HttpResponse)
    (h200 : resp.status_code = 200)
    (hst : resp.statusField.getD "unknown" = "succeeded") :
    (∀ u us, resp.output = .list (u :: us) →
        Replicate.pollStep task_id poll_interval elapsed retry_count resp =
          .done ⟨"success", task_id, some u, none⟩) ∧
    (∀ s, resp.output = .str s → s ≠ "" →
        Replicate.pollStep task_id poll_interval elapsed retry_count resp =
          .done ⟨"success", task_id, some s, none⟩) ∧
    (resp.output = .list [] ∨ resp.output = .str "" ∨ resp.output = .other →
        Replicate.pollStep task_id poll_interval elapsed retry_count resp =
          .raised (Replicate.noUsableOutputMsg resp)) := by
  refine ⟨?_, ?_, ?_⟩
  · intro u us ho
    simp [Replicate.pollStep, h200, hst, ho]
  · intro s ho hs
    simp [Replicate.pollStep, h200, hst, ho, hs]
  · rintro (ho | ho | ho) <;> simp [Replicate.pollStep, h200, hst, ho]

/-- Witness for C4: output `["u1", "u2"]` succeeds with "u1"; output `[]`
raises. -/
theorem poll_succeeded_output_witness :
    Replicate.pollStep "t" 5 0 0 ⟨200, some "succeeded", .list ["u1", "u2"], none, ""⟩ =
        .done ⟨"success", "t", some "u1", none⟩ ∧
    Replicate.pollStep "t" 5 0 0 ⟨200, some "succeeded", .list [], none, ""⟩ =
        .raised (Replicate.noUsableOutputMsg ⟨200, some "succeeded", .list [], none, ""⟩) := by
  have h1 := poll_succeeded_output "t" 5 0 0
    ⟨200, some "succeeded", .list ["u1", "u2"], none, ""⟩ (by decide) (by decide)
  have h2 := poll_succeeded_output "t" 5 0 0
    ⟨200, some "succeeded", .list [], none, ""⟩ (by decide) (by decide)
  exact ⟨h1.1 "u1" ["u2"] rfl, h2.2.2 (Or.inl rfl)⟩

/-- Auxiliary to C2: from any loop state whose elapsed time is still below
`max_wait + poll_interval`, a trace of "processing" responses long enough to
cover the deadline makes the loop exit with the timeout error, at an elapsed
time below `max_wait + poll_interval`. -/
theorem pollLoop_processing_timeout (task_id : String)
    (max_wait poll_interval : Nat) :
    ∀ n elapsed retry_count, elapsed < max_wait + poll_interval →
      max_wait ≤ elapsed + n * poll_interval →
      ∃ e, Replicate.pollLoop task_id max_wait poll_interval elapsed retry_count
          (List.replicate n Replicate.processingResp) =
            some (.error (Replicate.timeoutMsg max_wait), e) ∧
        e < max_wait + poll_interval := by
  intro n
  induction n with
  | zero =>
      intro elapsed retry_count h1 h2
      refine ⟨elapsed, ?_, h1⟩
      have : ¬ elapsed < max_wait := by omega
      simp [Replicate.pollLoop, this]
  | succ n ih =>
      intro elapsed retry_count h1 h2
      by_cases hlt : elapsed < max_wait
      · have hstep : Replicate.pollStep task_id poll_interval elapsed retry_count
            Replicate.processingResp = .next (elapsed + poll_interval) 0 := rfl
        rw [List.replicate_succ]
        simp only [Replicate.pollLoop, hlt, if_true, hstep]
        exact ih (elapsed + poll_interval) 0 (by omega) (by
          have : elapsed + (n + 1) * poll_interval =
              elapsed + poll_interval + n * poll_interval := by ring
          omega)
      · refine ⟨elapsed, ?_, h1⟩
        rw [List.replicate_succ]
        simp [Replicate.pollLoop, hlt]

/-- C2: when every vendor response is a successful transport response with
the non-terminal status "processing", `_poll_prediction` terminates by
raising the timeout error naming `max_wait`, and (network time idealized as
zero, counting only their own sleeps) the elapsed time at exit is below
`max_wait + poll_interval`, because the deadline is checked once per
iteration. -/
theorem poll_loop_timeout_bound (task_id poll_url : String)
    (max_wait poll_interval n : Nat) (hp : 0 < poll_interval)
    (hn : max_wait ≤ n * poll_interval) :
    ∃ e, Replicate._poll_prediction task_id poll_url max_wait poll_interval
        (List.replicate n Replicate.processingResp) =
          some (.error (Replicate.timeoutMsg max_wait), e) ∧
      e < max_wait + poll_interval :=
  pollLoop_processing_timeout task_id max_wait poll_interval n 0 0
    (by omega) (by omega)

/-- Witness for C2: `max_wait = 7`, `poll_interval = 3`, three "processing"
responses. -/
theorem poll_loop_timeout_bound_witness :
    ∃ e, Replicate._poll_prediction "t" "u" 7 3
        (List.replicate 3 Replicate.processingResp) =
          some (.error (Replicate.timeoutMsg 7), e) ∧
      e < 7 + 3 :=
  poll_loop_timeout_bound "t" "u" 7 3 3 (by decide) (by decide)

namespace Replicate

/-- The module-level `_task_poll_urls` dict: task_id → poll_url, most recent
binding first. -/
abbrev AdapterState := List (String × String)

/-- The `{"task_id": ..., "poll_url": ...}` dict returned by a successful
`_submit_prediction` (the vendor HTTP call itself is out of scope; its
successful response is a given). -/
structure SubmitResponse where
  task_id : String
  poll_url : String
deriving DecidableEq, Repr

/-- `_IMAGE_MODELS` of `tools/providers/replicate.py`. -/
def _IMAGE_MODELS : List (String × String) :=
  [ ("flux-schnell", "black-forest-labs/flux-schnell"),
    ("flux-dev", "black-forest-labs/flux-dev") ]

/-- `_VIDEO_MODELS` of `tools/providers/replicate.py`. -/
def _VIDEO_MODELS : List (String × String) :=
  [ ("ltx-video", "lightricks/ltx-video"),
    ("wan-2.1", "wavespeed-ai/wan2.1-i2v-480p"),
    ("cogvideox", "fofr/cogvideox-5b"),
    ("minimax-video", "minimax/video-01-live") ]

/-- `submit_image` of `tools/providers/replicate.py`, state-passing: given
the vendor's successful submit response, it records
`_task_poll_urls[task_id] = poll_url` and then returns the task id. -/
def submit_image (model : String) (info : SubmitResponse) (st : AdapterState) :
    Except String (String × AdapterState) :=
  match _IMAGE_MODELS.lookup model with
  | none =>
      .error ("Replicate doesn't support image model: '" ++ model ++ "'. " ++
        "Available: " ++ toString (_IMAGE_MODELS.map Prod.fst))
  | some _ => .ok (info.task_id, (info.task_id, info.poll_url) :: st)

/-- `submit_video` of `tools/providers/replicate.py`, state-passing. -/
def submit_video (model : String) (info : SubmitResponse) (st : AdapterState) :
    Except String (String × AdapterState) :=
  match _VIDEO_MODELS.lookup model with
  | none =>
      .error ("Replicate doesn't support video model: '" ++ model ++ "'. " ++
        "Available: " ++ toString (_VIDEO_MODELS.map Prod.fst))
  | some _ => .ok (info.task_id, (info.task_id, info.poll_url) :: st)

/-- Unknown-handle message of `poll_image`. -/
def noPollUrlImageMsg (task_id : String) : String :=
  "No poll URL stored for Replicate task " ++ task_id ++
    ". Was submit_image called in this session?"

/-- Unknown-handle message of `poll_video`. -/
def noPollUrlVideoMsg (task_id : String) : String :=
  "No poll URL stored for Replicate task " ++ task_id ++
    ". Was submit_video called in this session?"

/-- `poll_image` of `tools/providers/replicate.py`: looks the handle up in
`_task_poll_urls`; raises the unknown-handle error when absent (elapsed 0, no
vendor request consumed), otherwise runs `_poll_prediction` on the stored
URL. -/
def poll_image (st : AdapterState) (task_id : String)
    (max_wait poll_interval : Nat) (resps : List HttpResponse) :
    Option (Except String GenerationResult × Nat) :=
  match st.lookup task_id with
  | none => some (.error (noPollUrlImageMsg task_id), 0)
  | some poll_url => _poll_prediction task_id poll_url max_wait poll_interval resps

/-- `poll_video` of `tools/providers/replicate.py`. -/
def poll_video (st : AdapterState) (task_id : String)
    (max_wait poll_interval : Nat) (resps : List HttpResponse) :
    Option (Except String GenerationResult × Nat) :=
  match st.lookup task_id with
  | none => some (.error (noPollUrlVideoMsg task_id), 0)
  | some poll_url => _poll_prediction task_id poll_url max_wait poll_interval resps

/-- The error value stored by `poll_tasks_parallel`'s `except` branch:
`{"status": "error", "task_id": tid, "error": str(e)}`. -/
def errorResult (task_id msg : String) : GenerationResult :=
  ⟨"error", task_id, none, some msg⟩

/-- `poll_tasks_parallel` of `tools/providers/replicate.py` and
`tools/providers/wavespeed.py`. `outcome tid` is what `future.result()`
delivers for task `tid`: the task's own `GenerationResult`, or the exception
its poll loop raised. The `try/except` around `future.result()` converts a
raise into an `errorResult` keyed by the handle; every future is drained via
`as_completed`, here embedded as the map over all handles. -/
def poll_tasks_parallel (outcome : String → Except String GenerationResult)
    (task_ids : List String) : List (String × GenerationResult) :=
  task_ids.map fun tid =>
    match outcome tid with
    | .ok r => (tid, r)
    | .error e => (tid, errorResult tid e)

end Replicate

namespace Wavespeed

/-- `_IMAGE_MODELS` of `tools/providers/wavespeed.py`. -/
def _IMAGE_MODELS : List (String × String) :=
  [ ("gpt-image-1.5", "openai/gpt-image-1.5/edit") ]

/-- The module-level `_task_poll_urls` dict of `tools/providers/wavespeed.py`
(one shared map for the whole module, used by image and video alike). -/
abbrev AdapterState := Replicate.AdapterState

/-- `submit_image` of `tools/providers/wavespeed.py`, state-passing: records
`_task_poll_urls[task_id] = poll_url` before returning the task id. -/
def submit_image (model : String) (info : Replicate.SubmitResponse)
    (st : AdapterState) : Except String (String × AdapterState) :=
  match _IMAGE_MODELS.lookup model with
  | none =>
      .error ("WaveSpeed doesn't support image model: '" ++ model ++ "'. " ++
        "Available: " ++ toString (_IMAGE_MODELS.map Prod.fst))
  | some _ => .ok (info.task_id, (info.task_id, info.poll_url) :: st)

/-- Unknown-handle message of `poll_video`. -/
def noPollUrlVideoMsg (task_id : String) : String :=
  "No poll URL stored for WaveSpeed task " ++ task_id ++
    ". Was submit_video called in this session?"

/-- `poll_video` of `tools/providers/wavespeed.py`: the unknown-handle check
is in this module; the loop itself (`poll_wavespeed_task`, in the external
utils module) is abstracted as the continuation `pollVendor` applied to the
handle and its stored poll URL. -/
def poll_video (pollVendor : String → String → Except String Replicate.GenerationResult)
    (st : AdapterState) (task_id : String) :
    Except String Replicate.GenerationResult :=
  match st.lookup task_id with
  | none => .error (noPollUrlVideoMsg task_id)
  | some poll_url => pollVendor task_id poll_url

end Wavespeed

/-- C1: `poll_tasks_parallel` never raises due to a per-task failure — it is
a total function of the per-task outcomes — an empty input yields an empty
mapping, the mapping's keys are exactly the input handles, and each handle is
mapped to its own task's `Success` result when its loop returned, or to an
`Error` result with status "error" carrying the task id and the raised
message when its loop raised. -/
theorem poll_tasks_parallel_isolation
    (outcome : String → Except String Replicate.GenerationResult)
    (task_ids : List String) :
    Replicate.poll_tasks_parallel outcome [] = [] ∧
    (Replicate.poll_tasks_parallel outcome task_ids).map Prod.fst = task_ids ∧
    ∀ tid ∈ task_ids,
      (∀ e, outcome tid = .error e →
          (tid, Replicate.errorResult tid e) ∈
            Replicate.poll_tasks_parallel outcome task_ids) ∧
      (∀ r, outcome tid = .ok r →
          (tid, r) ∈ Replicate.poll_tasks_parallel outcome task_ids) := by
  refine ⟨rfl, ?_, ?_⟩
  · induction task_ids with
    | nil => rfl
    | cons hd tl ih =>
        rw [Replicate.poll_tasks_parallel] at ih ⊢
        rw [List.map_cons, List.map_cons, ih]
        cases h : outcome hd <;> simp [h]
  · intro tid htid
    constructor
    · intro e he
      have := List.mem_map_of_mem
        (fun tid => match outcome tid with
          | .ok r => (tid, r)
          | .error e => (tid, Replicate.errorResult tid e)) htid
      rw [Replicate.poll_tasks_parallel]
      simpa [he] using this
    · intro r hr
      have := List.mem_map_of_mem
        (fun tid => match outcome tid with
          | .ok r => (tid, r)
          | .error e => (tid, Replicate.errorResult tid e)) htid
      rw [Replicate.poll_tasks_parallel]
      simpa [hr] using this

/-- A concrete outcome assignment where only task "b" raises. -/
def demoOutcome : String → Except String Replicate.GenerationResult :=
  fun tid =>
    if tid = "b" then .error "boom"
    else .ok ⟨"success", tid, some "u", none⟩

/-- Witness for C1: with tasks a, b, c and b's loop raising "boom", the
mapping has exactly keys a, b, c, and b carries the captured error. -/
theorem poll_tasks_parallel_isolation_witness :
    (Replicate.poll_tasks_parallel demoOutcome ["a", "b", "c"]).map Prod.fst =
        ["a", "b", "c"] ∧
    ("b", Replicate.errorResult "b" "boom") ∈
        Replicate.poll_tasks_parallel demoOutcome ["a", "b", "c"] :=
  ⟨(poll_tasks_parallel_isolation demoOutcome ["a", "b", "c"]).2.1,
    ((poll_tasks_parallel_isolation demoOutcome ["a", "b", "c"]).2.2
        "b" (by decide)).1 "boom" (by decide)⟩

/-- C7: an adapter's poll raises the unknown-handle "No poll URL stored"
error exactly when the handle is not in the recorded map: every task id a
successful submit returns has its poll URL recorded in the returned state
(before the caller sees the handle), later submissions never un-record it,
polling a recorded handle proceeds into the vendor poll loop instead, and
polling an unrecorded handle yields the unknown-handle error at elapsed time
zero for EVERY vendor response trace — no vendor request is consulted. -/
theorem poll_unknown_handle :
    (∀ model info st tid st',
        Replicate.submit_image model info st = .ok (tid, st') →
        st'.lookup tid = some info.poll_url) ∧
    (∀ model info st tid st',
        Replicate.submit_video model info st = .ok (tid, st') →
        st'.lookup tid = some info.poll_url) ∧
    (∀ model info st tid st' u,
        Replicate.submit_image model info st = .ok (tid, st') →
        (st.lookup u).isSome = true → (st'.lookup u).isSome = true) ∧
    (∀ (st : Replicate.AdapterState) tid, st.lookup tid = none →
        ∀ max_wait poll_interval resps,
          Replicate.poll_image st tid max_wait poll_interval resps =
            some (.error (Replicate.noPollUrlImageMsg tid), 0)) ∧
    (∀ (st : Replicate.AdapterState) tid url, st.lookup tid = some url →
        ∀ max_wait poll_interval resps,
          Replicate.poll_image st tid max_wait poll_interval resps =
            Replicate._poll_prediction tid url max_wait poll_interval resps) := by
  refine ⟨?_, ?_, ?_, ?_, ?_⟩
  · intro model info st tid st' h
    rw [Replicate.submit_image] at h
    cases hm : Replicate._IMAGE_MODELS.lookup model <;> rw [hm] at h
    · exact absurd h (by simp)
    · obtain ⟨rfl, rfl⟩ : info.task_id = tid ∧ (info.task_id, info.poll_url) :: st = st' := by
        simpa using h
      simp [List.lookup]
  · intro model info st tid st' h
    rw [Replicate.submit_video] at h
    cases hm : Replicate._VIDEO_MODELS.lookup model <;> rw [hm] at h
    · exact absurd h (by simp)
    · obtain ⟨rfl, rfl⟩ : info.task_id = tid ∧ (info.task_id, info.poll_url) :: st = st' := by
        simpa using h
      simp [List.lookup]
  · intro model info st tid st' u h hu
    rw [Replicate.submit_image] at h
    cases hm : Replicate._IMAGE_MODELS.lookup model <;> rw [hm] at h
    · exact absurd h (by simp)
    · obtain ⟨rfl, rfl⟩ : info.task_id = tid ∧ (info.task_id, info.poll_url) :: st = st' := by
        simpa using h
      rw [List.lookup]
      cases hbe : u == info.task_id <;> simp [hu]
  · intro st tid h max_wait poll_interval resps
    simp [Replicate.poll_image, h]
  · intro st tid url h max_wait poll_interval resps
    simp [Replicate.poll_image, h]

/-- Witness for C7: a fresh submit records the handle; polling the empty
adapter state hits the unknown-handle error. -/
theorem poll_unknown_handle_witness :
    ([("t1", "u1")] : Replicate.AdapterState).lookup "t1" = some "u1" ∧
    Replicate.poll_image [] "t9" 60 5 [Replicate.processingResp] =
      some (.error (Replicate.noPollUrlImageMsg "t9"), 0) :=
  ⟨poll_unknown_handle.1 "flux-schnell" ⟨"t1", "u1"⟩ [] "t1" [("t1", "u1")] rfl,
    poll_unknown_handle.2.2.2.1 [] "t9" rfl 60 5 [Replicate.processingResp]⟩

/-- C10: each adapter module keeps one shared task-id → poll-URL map for both
generation kinds: a handle recorded by `submit_image` is accepted by
`poll_video` on the resulting state (and one recorded by `submit_video` by
`poll_image`), the poll proceeding into the vendor loop on the stored URL
instead of raising the unknown-handle error; likewise in the wavespeed
module. -/
theorem shared_handle_map :
    (∀ model info st tid st',
        Replicate.submit_image model info st = .ok (tid, st') →
        ∀ max_wait poll_interval resps,
          Replicate.poll_video st' tid max_wait poll_interval resps =
            Replicate._poll_prediction tid info.poll_url max_wait poll_interval resps) ∧
    (∀ model info st tid st',
        Replicate.submit_video model info st = .ok (tid, st') →
        ∀ max_wait poll_interval resps,
          Replicate.poll_image st' tid max_wait poll_interval resps =
            Replicate._poll_prediction tid info.poll_url max_wait poll_interval resps) ∧
    (∀ model info st tid st',
        Wavespeed.submit_image model info st = .ok (tid, st') →
        ∀ pollVendor, Wavespeed.poll_video pollVendor st' tid =
          pollVendor tid info.poll_url) := by
  refine ⟨?_, ?_, ?_⟩
  · intro model info st tid st' h max_wait poll_interval resps
    rw [Replicate.submit_image] at h
    cases hm : Replicate._IMAGE_MODELS.lookup model <;> rw [hm] at h
    · exact absurd h (by simp)
    · obtain ⟨rfl, rfl⟩ : info.task_id = tid ∧ (info.task_id, info.poll_url) :: st = st' := by
        simpa using h
      simp [Replicate.poll_video, List.lookup]
  · intro model info st tid st' h max_wait poll_interval resps
    rw [Replicate.submit_video] at h
    cases hm : Replicate._VIDEO_MODELS.lookup model <;> rw [hm] at h
    · exact absurd h (by simp)
    · obtain ⟨rfl, rfl⟩ : info.task_id = tid ∧ (info.task_id, info.poll_url) :: st = st' := by
        simpa using h
      simp [Replicate.poll_image, List.lookup]
  · intro model info st tid st' h pollVendor
    rw [Wavespeed.submit_image] at h
    cases hm : Wavespeed._IMAGE_MODELS.lookup model <;> rw [hm] at h
    · exact absurd h (by simp)
    · obtain ⟨rfl, rfl⟩ : info.task_id = tid ∧ (info.task_id, info.poll_url) :: st = st' := by
        simpa using h
      simp [Wavespeed.poll_video, List.lookup]

/-- Witness for C10: a replicate image submit's handle polls as a video. -/
theorem shared_handle_map_witness :
    Replicate.poll_video [("t1", "u1")] "t1" 60 5 [] =
      Replicate._poll_prediction "t1" "u1" 60 5 [] :=
  shared_handle_map.1 "flux-schnell" ⟨"t1", "u1"⟩ [] "t1" [("t1", "u1")] rfl 60 5 []

/-!
Worker-pool model for `poll_tasks_parallel`'s `ThreadPoolExecutor`: tasks
move from queued to running only while fewer than `max_workers` are running,
and from running to done when their poll loop finishes.
-/

/-- `max_workers = min(total, 20)` of `poll_tasks_parallel`. -/
def max_workers (total : Nat) : Nat := min total 20

/-- Executor state: queued handles (submitted, waiting for a worker slot),
running handles (a worker is driving their poll loop), finished handles. -/
structure PoolState where
  queued : List String
  running : List String
  done : List String
deriving DecidableEq, Repr

/-- One scheduling event of a pool with `cap` worker slots: a queued task
starts only when a slot is free (fewer than `cap` running), and any running
task may finish. -/
inductive PoolStep (cap : Nat) : PoolState → PoolState → Prop where
  | start (t : String) (q r d : List String) (h : r.length < cap) :
      PoolStep cap ⟨t :: q, r, d⟩ ⟨q, t :: r, d⟩
  | finish (t : String) (s : PoolState) (h : t ∈ s.running) :
      PoolStep cap s ⟨s.queued, s.running.erase t, t :: s.done⟩

/-- The executor's initial state: all handles queued, none running. -/
def initState (task_ids : List String) : PoolState := ⟨task_ids, [], []⟩

/-- C8: `poll_tasks_parallel` with `n` handles uses a pool of
`max_workers n = min n 20` slots, and in every state the pool can reach from
the initial state, at most `min n 20` — in particular at most 20 — poll
loops are running at once; the remaining handles stay queued until a slot
frees. -/
theorem pool_concurrency_bound (task_ids : List String) (s : PoolState)
    (h : Relation.ReflTransGen (PoolStep (max_workers task_ids.length))
        (initState task_ids) s) :
    s.running.length ≤ max_workers task_ids.length ∧
    s.running.length ≤ 20 := by
  have key : s.running.length ≤ max_workers task_ids.length := by
    induction h with
    | refl => simp [initState]
    | tail _ hstep ih =>
        cases hstep with
        | start t q r d hlt => exact hlt
        | finish t hmem =>
            exact le_trans (List.erase_sublist _ _).length_le ih
  exact ⟨key, le_trans key (Nat.min_le_right _ _)⟩

/-- Witness for C8: the initial state of a 25-task pool. -/
theorem pool_concurrency_bound_witness :
    (initState (List.replicate 25 "t")).running.length ≤
        max_workers (List.replicate 25 "t").length ∧
    (initState (List.replicate 25 "t")).running.length ≤ 20 :=
  pool_concurrency_bound (List.replicate 25 "t") (initState (List.replicate 25 "t"))
    Relation.ReflTransGen.refl

end CreativeEngine
